import Mathlib

/-!
Shallow embedding of the LibrePods linux desktop UI layer
(src/linux-rust/src/ui/messages.rs, window.rs, tray.rs) and proofs about it.

External collaborator types (the bluetooth aacp module, utils::MyTheme, the
tokio message queue, the iced toolkit) are modelled only at the granularity
this UI code observes them: toolkit tasks become explicit effect lists,
the queue becomes a FIFO list plus a closed flag, and window identifiers
become natural numbers.
-/

namespace LibrePods

/-- External AACP event payload; opaque to the UI layer (window.rs only logs it). -/
inductive AACPEvent where
  | mk (tag : Nat)
deriving DecidableEq, Repr

/-- Outbound control command identifiers from the external aacp module;
only the two variants used by tray.rs are modelled. -/
inductive ControlCommandIdentifiers where
  | ListeningMode
  | ConversationDetectConfig
deriving DecidableEq, Repr

/-- messages.rs: enum UIMessage. -/
inductive UIMessage where
  | OpenWindow
  | DeviceConnected (mac : String)
  | DeviceDisconnected (mac : String)
  | AACPUIEvent (mac : String) (event : AACPEvent)
  | NoOp
deriving DecidableEq, Repr

/-- utils::MyTheme (external collaborator; the full 22-variant list is elided,
the update logic never inspects the value). -/
inductive MyTheme where
  | Light
  | Dark
  | OtherTheme
deriving DecidableEq, Repr

/-- aacp::DeviceType as observed by window.rs: the AirPods variant versus
anything else. -/
inductive DeviceType where
  | AirPods
  | Other
deriving DecidableEq, Repr

/-- aacp::AirPodsInformation: the fields shown in the detail view. -/
structure AirPodsInfo where
  model_number : String
  manufacturer : String
  serial_number : String
  left_serial_number : String
  right_serial_number : String
  version1 : String
  version2 : String
  version3 : String
deriving DecidableEq, Repr

/-- aacp::DeviceInformation: nested device-info variant. -/
inductive DeviceInformation where
  | AirPods (info : AirPodsInfo)
  | OtherInfo
deriving DecidableEq, Repr

/-- aacp::DeviceData: one device-registry entry. -/
structure DeviceData where
  name : String
  type_ : DeviceType
  information : Option DeviceInformation
deriving DecidableEq, Repr

/-- window.rs: enum Tab. -/
inductive Tab where
  | Device (id : String)
  | Settings
deriving DecidableEq, Repr

/-- The window::Settings fields that App::new and App::update set before
calling window::open (min_size = Some(Size::new(400.0, 300.0)),
icon = from_file("../../assets/icon.png")). -/
structure WindowSettings where
  min_size : Option (Nat × Nat)
  icon_path : Option String
deriving DecidableEq, Repr

def appWindowSettings : WindowSettings :=
  { min_size := some (400, 300), icon_path := some "../../assets/icon.png" }

/-- One toolkit/system side effect contained in a Task batch returned by
App::update. Task::perform(wait_for_message ..) is AwaitNext; window ids
are naturals. -/
inductive Effect where
  | AwaitNext
  | GainFocus (id : Nat)
  | OpenWin (settings : WindowSettings) (id : Nat)
  | WriteSettingsFile (theme : MyTheme)
  | Clipboard (data : String)
deriving DecidableEq, Repr

/-- window.rs: enum Message. A pane_grid::ResizeEvent is carried as its
ratio (the single split's identity is implicit: the App has one split). -/
inductive Message where
  | WindowOpened (id : Nat)
  | WindowClosed (id : Nat)
  | Resized (ratio : ℚ)
  | SelectTab (tab : Tab)
  | ThemeSelected (theme : MyTheme)
  | CopyToClipboard (data : String)
  | UIMessage (msg : UIMessage)
deriving DecidableEq, Repr

/-- window.rs: struct BluetoothState. -/
structure BluetoothState where
  connected_devices : List String
deriving DecidableEq, Repr

/-- window.rs: struct App. The pane_grid state is reduced to the stored
split ratio; ui_rx and the static theme_state combo list carry no
update-relevant state. -/
structure App where
  window : Option Nat
  paneRatio : ℚ
  selected_tab : Tab
  selected_theme : MyTheme
  bluetooth_state : BluetoothState
deriving DecidableEq, Repr

/-- App::update (window.rs lines 143-255) as a pure
state-and-effects transformation. `freshId` stands for the window id that
iced's window::open allocates in the UIMessage::OpenWindow branch. -/
def update (s : App) (freshId : Nat) (m : Message) : App × List Effect :=
  match m with
  | Message.WindowOpened id => ({ s with window := some id }, [])
  | Message.WindowClosed id =>
      (if s.window = some id then { s with window := none } else s, [])
  | Message.Resized ratio => ({ s with paneRatio := ratio }, [])
  | Message.SelectTab tab => ({ s with selected_tab := tab }, [])
  | Message.ThemeSelected theme =>
      ({ s with selected_theme := theme }, [Effect.WriteSettingsFile theme])
  | Message.CopyToClipboard data => (s, [Effect.Clipboard data])
  | Message.UIMessage um =>
    match um with
    | UIMessage.NoOp => (s, [Effect.AwaitNext])
    | UIMessage.OpenWindow =>
      match s.window with
      | some windowId => (s, [Effect.GainFocus windowId, Effect.AwaitNext])
      | none =>
          ({ s with window := some freshId },
           [Effect.OpenWin appWindowSettings freshId, Effect.AwaitNext])
    | UIMessage.DeviceConnected mac =>
      let already_connected := s.bluetooth_state.connected_devices.contains mac
      let bt :=
        if already_connected then s.bluetooth_state
        else { connected_devices := s.bluetooth_state.connected_devices ++ [mac] }
      ({ s with bluetooth_state := bt }, [Effect.AwaitNext])
    | UIMessage.DeviceDisconnected _ => (s, [Effect.AwaitNext])
    | UIMessage.AACPUIEvent _ _ => (s, [Effect.AwaitNext])

/-- The registry load at the top of App::view: a read failure falls back to
the literal "\x7b\x7d" string and a parse failure falls back to the empty
map, so any unreadable or unparsable file yields the empty registry.
`readParse` is `some entries` when the file was read and parsed, `none`
on either failure. The registry is an association list keyed by mac. -/
def load_registry (readParse : Option (List (String × DeviceData))) :
    List (String × DeviceData) :=
  readParse.getD []

/-- Outcome of rendering the content pane. -/
inductive ContentView where
  | placeholder
  | detail (info : AirPodsInfo)
  | emptyDetail
  | settings
deriving DecidableEq, Repr

/-- The content-pane branch of App::view (window.rs lines 368-629).
Returns none where the source panics: `devices_list.get(id).map(..).unwrap()`
at lines 380-381 when the selected id is absent from the registry. -/
def view_content (registry : List (String × DeviceData)) (tab : Tab) :
    Option ContentView :=
  match tab with
  | Tab.Settings => some ContentView.settings
  | Tab.Device id =>
    if id = "none" then some ContentView.placeholder
    else
      match (registry.lookup id).map (fun d => d.type_) with
      | none => none
      | some device_type =>
        if device_type = DeviceType.AirPods then
          match (registry.lookup id).bind (fun d => d.information) with
          | some (DeviceInformation.AirPods info) => some (ContentView.detail info)
          | _ => some ContentView.emptyDetail
        else some ContentView.emptyDetail

/-- The sidebar sort (window.rs line 344):
devices_vec.sort_by comparing the DeviceData name fields. Rust's sort_by is
stable, so it is embedded as a stable insertion sort: an element is inserted
before the first strictly greater name, hence after all equal names. -/
def insertByName (x : String × DeviceData) :
    List (String × DeviceData) → List (String × DeviceData)
  | [] => [x]
  | y :: rest =>
      if x.2.name < y.2.name then x :: y :: rest else y :: insertByName x rest

/-- The sorted device list of the sidebar: the registry entries (in file
iteration order) sorted stably by display name. -/
def sort_by_name (l : List (String × DeviceData)) : List (String × DeviceData) :=
  l.foldl (fun acc x => insertByName x acc) []

/-- The shared UI message queue, as the update loop observes it: messages
pending in FIFO order, plus whether the producer side has terminated. -/
structure ChannelState where
  pending : List UIMessage
  closed : Bool
deriving DecidableEq, Repr

/-- Resolved outcome of rx.recv().await inside wait_for_message: a pending
message is taken in FIFO order; on a closed, drained channel the receive
resolves to none; on an open, empty channel the call stays suspended
(outer none). -/
def recvResolve (c : ChannelState) :
    Option (Option UIMessage × ChannelState) :=
  match c.pending with
  | m :: rest => some (some m, { c with pending := rest })
  | [] => if c.closed then some (none, c) else none

/-- window.rs lines 651-662: wait_for_message wraps the received message,
mapping the channel-closed None into Message::UIMessage(UIMessage::NoOp). -/
def wait_for_message (c : ChannelState) : Option (Message × ChannelState) :=
  (recvResolve c).map (fun rc =>
    (match rc.1 with
     | some msg => Message.UIMessage msg
     | none => Message.UIMessage UIMessage.NoOp, rc.2))

/-- n+1 successive invocations of wait_for_message, returning the last
result (none if some invocation never resolves). -/
def waitRepeat : Nat → ChannelState → Option (Message × ChannelState)
  | 0, c => wait_for_message c
  | n + 1, c =>
    match wait_for_message c with
    | some (_, c2) => waitRepeat n c2
    | none => none

/-- aacp::BatteryStatus (external); the tray only Debug-formats it. -/
inductive BatteryStatus where
  | Charging
  | NotCharging
deriving DecidableEq, Repr

/-- tray.rs: struct MyTray. Battery levels are u8 percentages, embedded as
naturals; command_tx models only the presence of the outbound channel. -/
structure MyTray where
  conversation_detect_enabled : Option Bool
  battery_l : Option Nat
  battery_l_status : Option BatteryStatus
  battery_r : Option Nat
  battery_r_status : Option BatteryStatus
  battery_c : Option Nat
  battery_c_status : Option BatteryStatus
  connected : Bool
  listening_mode : Option Nat
  allow_off_option : Option Nat
  command_tx : Option Unit
deriving DecidableEq, Repr

/-- The text handed to generate_icon by MyTray::icon_pixmap
(tray.rs lines 30-45). -/
def icon_text (t : MyTray) : String :=
  if t.connected then
    let min_battery : Option Nat :=
      match t.battery_l, t.battery_r with
      | some l, some r => some (Nat.min l r)
      | some l, none => some l
      | none, some r => some r
      | none, none => none
    (min_battery.map (fun b => toString b)).getD "?"
  else "D"

/-- The listening-mode radio-group option list built by MyTray::menu
(tray.rs lines 71-85): label plus associated protocol code. -/
def listening_mode_options (t : MyTray) : List (String × Nat) :=
  let allow_off := t.allow_off_option = some 1
  if allow_off then
    [("Off", 1), ("ANC", 2), ("Transparency", 3), ("Adaptive", 4)]
  else
    [("ANC", 2), ("Transparency", 3), ("Adaptive", 4)]

/-- The selected index of the radio group (tray.rs lines 86-88). -/
def listening_mode_selected (t : MyTray) : Nat :=
  (t.listening_mode.bind (fun mode =>
    (listening_mode_options t).findIdx? (fun p => p.2 == mode))).getD 0

/-- Commands sent by the radio group's select callback (tray.rs lines
93-98) when the user picks option index `current`. -/
def radio_select_sends (t : MyTray) (current : Nat) :
    List (ControlCommandIdentifiers × List Nat) :=
  match t.command_tx with
  | some _ =>
    let value := (((listening_mode_options t)[current]?).map (fun p => p.2)).getD 2
    [(ControlCommandIdentifiers.ListeningMode, [value])]
  | none => []

/-- Whether the conversation-detection checkmark item is enabled
(tray.rs line 109). -/
def conversation_item_enabled (t : MyTray) : Bool :=
  t.conversation_detect_enabled.isSome

/-- The conversation-detection activate callback (tray.rs lines 110-119):
new tray state and the commands sent. -/
def conversation_activate (t : MyTray) :
    MyTray × List (ControlCommandIdentifiers × List Nat) :=
  match t.command_tx with
  | some _ =>
    match t.conversation_detect_enabled with
    | some is_enabled =>
      let new_state := !is_enabled
      let value : Nat := if !new_state then 2 else 1
      ({ t with conversation_detect_enabled := some new_state },
       [(ControlCommandIdentifiers.ConversationDetectConfig, [value])])
    | none => (t, [])
  | none => (t, [])

/-- One RGBA pixel of the 64x64 icon image (image::Rgba channel values). -/
structure Rgba where
  r : Nat
  g : Nat
  b : Nat
  a : Nat
deriving DecidableEq, Repr

def transparentPx : Rgba := ⟨0, 0, 0, 0⟩

def grayPx : Rgba := ⟨128, 128, 128, 255⟩

def greenPx : Rgba := ⟨0, 255, 0, 255⟩

/-- text.ends_with of the percent character in generate_icon
(tray.rs line 145), on the underlying character list. -/
def ends_with_pct (text : String) : Bool :=
  match text.data.reverse with
  | [] => false
  | c :: _ => c = '%'

/-- trim_end_matches of the percent character in generate_icon
(tray.rs line 146): drop every trailing percent sign. -/
def strip_pct (text : String) : List Char :=
  (text.data.reverse.dropWhile (fun c => c = '%')).reverse

/-- ASCII digit test used by the numeric-parse model. -/
def is_ascii_digit (c : Char) : Bool :=
  decide (48 ≤ c.toNat) && decide (c.toNat ≤ 57)

/-- Model of the Rust f32 parse in generate_icon, restricted to decimal
natural numerals (the only inputs of the claim): all-digit nonempty text
parses to its decimal value, anything else fails. -/
def parse_decimal_nat (s : List Char) : Option Nat :=
  if s = [] then none
  else if s.all is_ascii_digit then
    some (s.foldl (fun n c => 10 * n + (c.toNat - 48)) 0)
  else none

/-- The percentage computed by generate_icon in ring mode (tray.rs lines
145-149), idealized over the reals: strip the trailing percent signs,
parse, divide by 100; a parse failure yields 0 exactly as unwrap_or(0.0)
does, and a text without trailing percent sign yields 0. -/
noncomputable def percent_value (text : String) : ℝ :=
  if ends_with_pct text then
    (((parse_decimal_nat (strip_pct text)).map (fun n => (n : ℝ))).getD 0) / 100
  else 0

/-- f32::atan2 (self = y, other = x), idealized over the reals. -/
noncomputable def atan2 (y x : ℝ) : ℝ :=
  if 0 < x then Real.arctan (y / x)
  else if x < 0 then
    (if 0 ≤ y then Real.arctan (y / x) + Real.pi
     else Real.arctan (y / x) - Real.pi)
  else
    (if 0 < y then Real.pi / 2
     else if y < 0 then -(Real.pi / 2)
     else 0)

/-- f32::rem_euclid, idealized over the reals (for a positive modulus this
is the canonical representative in [0, b)). -/
noncomputable def remEuclid (a b : ℝ) : ℝ := a - b * ⌊a / b⌋

/-- Distance of pixel (x, y) from the icon center (32, 32)
(tray.rs lines 159-161: dx*dx + dy*dy under sqrt). -/
noncomputable def dist_from_center (x y : Nat) : ℝ :=
  let dx : ℝ := (x : ℝ) - 32
  let dy : ℝ := (y : ℝ) - 32
  Real.sqrt (dx * dx + dy * dy)

/-- The annulus test of both ring loops (tray.rs lines 162 and 174):
inner radius 22 strictly exceeded, outer radius 28 not exceeded. -/
def in_annulus (x y : Nat) : Prop :=
  22 < dist_from_center x y ∧ dist_from_center x y ≤ 28

/-- The angle computed at tray.rs lines 175-176:
(pi/2 - atan2 dy dx).rem_euclid(2 pi). -/
noncomputable def angle_from_top (x y : Nat) : ℝ :=
  let dx : ℝ := (x : ℝ) - 32
  let dy : ℝ := (y : ℝ) - 32
  remEuclid (Real.pi / 2 - atan2 dy dx) (2 * Real.pi)

open Classical in
/-- First ring pass (tray.rs lines 157-166): gray background on the
annulus over the transparent image. -/
noncomputable def ring_background (x y : Nat) : Rgba :=
  if in_annulus x y then grayPx else transparentPx

open Classical in
/-- Second ring pass (tray.rs lines 169-182): pixels of the annulus whose
angle does not exceed percentage * 2 pi are overwritten with the fill
color; all other pixels keep their first-pass value. `p` is the parsed
percentage (a fraction of 1). -/
noncomputable def ring_pixel (p : ℝ) (x y : Nat) : Rgba :=
  if in_annulus x y ∧ angle_from_top x y ≤ p * (2 * Real.pi)
  then greenPx else ring_background x y

/-- C1: every UI event delivered by the event bridge (OpenWindow,
DeviceConnected, DeviceDisconnected, AACPUIEvent, NoOp) makes App::update
return an effect batch containing exactly one new await-next task on the
shared queue: no branch re-arms zero times or more than once. -/
theorem C1_every_ui_event_rearms_exactly_once :
    ∀ (s : App) (freshId : Nat) (um : UIMessage),
      ((update s freshId (Message.UIMessage um)).2).count Effect.AwaitNext = 1 := by
  intro s freshId um
  cases um with
  | OpenWindow => cases h : s.window <;> simp [update, h]
  | DeviceConnected mac => simp [update]
  | DeviceDisconnected mac => simp [update]
  | AACPUIEvent mac e => simp [update]
  | NoOp => simp [update]

/-- C2 (code bug): an unreadable or unparsable registry does degrade to the
empty registry, and a mismatched nested device-info variant does degrade to
an empty detail block, but rendering the detail view of a selected device
identifier that is missing from the registry aborts the whole view: the
source unwraps the failed lookup (window.rs lines 380-381) and panics,
instead of degrading as the claim states. -/
theorem C2_missing_device_aborts_view :
    load_registry none = []
    ∧ view_content [] (Tab.Device "none") = some ContentView.placeholder
    ∧ view_content
        [("00:11:22:33:44:55",
          ⟨"Device Name", DeviceType.AirPods, some DeviceInformation.OtherInfo⟩)]
        (Tab.Device "00:11:22:33:44:55") = some ContentView.emptyDetail
    ∧ view_content [] (Tab.Device "00:11:22:33:44:55") = none := by
  refine ⟨rfl, by decide, by decide, by decide⟩

/-- C3: the application never holds two main windows: with a stored handle,
an OpenWindow event only emits a gain-focus effect for that handle (plus
the re-arm) and leaves the state unchanged; with no stored handle it emits
exactly one window-creation effect carrying the minimum-size and icon
settings and stores the new handle, which the toolkit's WindowOpened
confirmation stores again. -/
theorem C3_single_window_lifecycle :
    ∀ (ratio : ℚ) (tab : Tab) (theme : MyTheme) (bt : BluetoothState)
      (freshId h : Nat),
      update ⟨some h, ratio, tab, theme, bt⟩ freshId
          (Message.UIMessage UIMessage.OpenWindow)
        = (⟨some h, ratio, tab, theme, bt⟩,
           [Effect.GainFocus h, Effect.AwaitNext])
      ∧ update ⟨none, ratio, tab, theme, bt⟩ freshId
          (Message.UIMessage UIMessage.OpenWindow)
        = (⟨some freshId, ratio, tab, theme, bt⟩,
           [Effect.OpenWin appWindowSettings freshId, Effect.AwaitNext])
      ∧ appWindowSettings.min_size = some (400, 300)
      ∧ appWindowSettings.icon_path = some "../../assets/icon.png"
      ∧ (∀ (s : App) (id : Nat),
          (update s freshId (Message.WindowOpened id)).1.window = some id) := by
  intro ratio tab theme bt freshId h
  exact ⟨rfl, rfl, rfl, rfl, fun s id => rfl⟩

/-- C5 (code bug): DeviceConnected("m") makes "m" a member and a repeated
DeviceConnected("m") introduces no duplicate, but DeviceDisconnected("m")
does not remove "m": the handler (window.rs lines 230-240) only logs and
re-arms, so the identifier stays a member, contrary to the claim. -/
theorem C5_disconnect_never_removes :
    (update (⟨none, 0, Tab.Device "none", MyTheme.Dark, ⟨[]⟩⟩ : App) 0
        (Message.UIMessage
          (UIMessage.DeviceConnected "00:11:22:33:44:55"))).1.bluetooth_state.connected_devices
      = ["00:11:22:33:44:55"]
    ∧ (update (⟨none, 0, Tab.Device "none", MyTheme.Dark,
          ⟨["00:11:22:33:44:55"]⟩⟩ : App) 0
        (Message.UIMessage
          (UIMessage.DeviceConnected "00:11:22:33:44:55"))).1.bluetooth_state.connected_devices
      = ["00:11:22:33:44:55"]
    ∧ (update (⟨none, 0, Tab.Device "none", MyTheme.Dark,
          ⟨["00:11:22:33:44:55"]⟩⟩ : App) 0
        (Message.UIMessage
          (UIMessage.DeviceDisconnected "00:11:22:33:44:55"))).1.bluetooth_state.connected_devices
      = ["00:11:22:33:44:55"] := by
  refine ⟨by decide, by decide, by decide⟩

/-- C7: the text handed to the rasterizer is the decimal rendering of the
minimum of the left and right battery percentages when both are present,
the present one alone otherwise, a literal question mark when both are
absent, and the fixed marker "D" whenever disconnected, independent of
every battery field. -/
theorem C7_icon_text_policy :
    ∀ (cd : Option Bool) (ls rs cs : Option BatteryStatus)
      (bc lm ao : Option Nat) (tx : Option Unit),
      (∀ l r : Nat,
        icon_text ⟨cd, some l, ls, some r, rs, bc, cs, true, lm, ao, tx⟩
          = toString (Nat.min l r))
      ∧ (∀ l : Nat,
        icon_text ⟨cd, some l, ls, none, rs, bc, cs, true, lm, ao, tx⟩
          = toString l)
      ∧ (∀ r : Nat,
        icon_text ⟨cd, none, ls, some r, rs, bc, cs, true, lm, ao, tx⟩
          = toString r)
      ∧ icon_text ⟨cd, none, ls, none, rs, bc, cs, true, lm, ao, tx⟩ = "?"
      ∧ (∀ bl br : Option Nat,
        icon_text ⟨cd, bl, ls, br, rs, bc, cs, false, lm, ao, tx⟩ = "D") := by
  intro cd ls rs cs bc lm ao tx
  exact ⟨fun l r => rfl, fun l => rfl, fun r => rfl, rfl, fun bl br => rfl⟩

/-- C8: the listening-mode selector offers exactly ANC, Transparency,
Adaptive (codes 2, 3, 4) when the allow-off flag is absent or 0, and
exactly Off, ANC, Transparency, Adaptive (codes 1, 2, 3, 4, Off first)
when the flag is 1; selecting the option at any index sends exactly one
listening-mode command whose payload byte is that option's code. -/
theorem C8_listening_mode_menu :
    ∀ (cd : Option Bool) (bl br bc : Option Nat)
      (ls rs cs : Option BatteryStatus) (conn : Bool) (lm : Option Nat)
      (tx : Option Unit),
      listening_mode_options ⟨cd, bl, ls, br, rs, bc, cs, conn, lm, none, tx⟩
        = [("ANC", 2), ("Transparency", 3), ("Adaptive", 4)]
      ∧ listening_mode_options ⟨cd, bl, ls, br, rs, bc, cs, conn, lm, some 0, tx⟩
        = [("ANC", 2), ("Transparency", 3), ("Adaptive", 4)]
      ∧ listening_mode_options ⟨cd, bl, ls, br, rs, bc, cs, conn, lm, some 1, tx⟩
        = [("Off", 1), ("ANC", 2), ("Transparency", 3), ("Adaptive", 4)]
      ∧ radio_select_sends ⟨cd, bl, ls, br, rs, bc, cs, conn, lm, none, some ()⟩ 0
        = [(ControlCommandIdentifiers.ListeningMode, [2])]
      ∧ radio_select_sends ⟨cd, bl, ls, br, rs, bc, cs, conn, lm, none, some ()⟩ 1
        = [(ControlCommandIdentifiers.ListeningMode, [3])]
      ∧ radio_select_sends ⟨cd, bl, ls, br, rs, bc, cs, conn, lm, none, some ()⟩ 2
        = [(ControlCommandIdentifiers.ListeningMode, [4])]
      ∧ radio_select_sends ⟨cd, bl, ls, br, rs, bc, cs, conn, lm, some 1, some ()⟩ 0
        = [(ControlCommandIdentifiers.ListeningMode, [1])]
      ∧ radio_select_sends ⟨cd, bl, ls, br, rs, bc, cs, conn, lm, some 1, some ()⟩ 1
        = [(ControlCommandIdentifiers.ListeningMode, [2])]
      ∧ radio_select_sends ⟨cd, bl, ls, br, rs, bc, cs, conn, lm, some 1, some ()⟩ 2
        = [(ControlCommandIdentifiers.ListeningMode, [3])]
      ∧ radio_select_sends ⟨cd, bl, ls, br, rs, bc, cs, conn, lm, some 1, some ()⟩ 3
        = [(ControlCommandIdentifiers.ListeningMode, [4])] := by
  intro cd bl br bc ls rs cs conn lm tx
  exact ⟨rfl, rfl, rfl, rfl, rfl, rfl, rfl, rfl, rfl, rfl⟩

/-- C9: the conversation-detection item is enabled exactly when the value
is known; activating it with known value b sends exactly one
conversation-detection command with payload 1 when the new state is
enabled (b was false) and 2 when disabled (b was true), and optimistically
stores the flipped value. -/
theorem C9_conversation_detection_toggle :
    ∀ (bl br bc : Option Nat) (ls rs cs : Option BatteryStatus)
      (conn : Bool) (lm ao : Option Nat) (tx : Option Unit) (b : Bool),
      conversation_item_enabled ⟨some b, bl, ls, br, rs, bc, cs, conn, lm, ao, tx⟩
        = true
      ∧ conversation_item_enabled ⟨none, bl, ls, br, rs, bc, cs, conn, lm, ao, tx⟩
        = false
      ∧ conversation_activate ⟨some b, bl, ls, br, rs, bc, cs, conn, lm, ao, some ()⟩
        = (⟨some (!b), bl, ls, br, rs, bc, cs, conn, lm, ao, some ()⟩,
           [(ControlCommandIdentifiers.ConversationDetectConfig,
             [if b then 2 else 1])]) := by
  intro bl br bc ls rs cs conn lm ao tx b
  refine ⟨rfl, rfl, ?_⟩
  cases b <;> rfl

theorem insertByName_perm (x : String × DeviceData)
    (l : List (String × DeviceData)) : (insertByName x l).Perm (x :: l) := by
  induction l with
  | nil => exact List.Perm.refl _
  | cons y t ih =>
    by_cases h : x.2.name < y.2.name
    · simp only [insertByName, if_pos h]
      exact List.Perm.refl _
    · simp only [insertByName, if_neg h]
      exact (ih.cons y).trans (List.Perm.swap x y t)

theorem insertByName_sorted (x : String × DeviceData)
    (l : List (String × DeviceData))
    (hl : l.Pairwise (fun a b => a.2.name ≤ b.2.name)) :
    (insertByName x l).Pairwise (fun a b => a.2.name ≤ b.2.name) := by
  induction l with
  | nil => simp [insertByName]
  | cons y t ih =>
    rcases List.pairwise_cons.mp hl with ⟨hy, ht⟩
    by_cases h : x.2.name < y.2.name
    · simp only [insertByName, if_pos h]
      refine List.pairwise_cons.mpr ⟨?_, hl⟩
      intro z hz
      rcases List.mem_cons.mp hz with rfl | hz2
      · exact le_of_lt h
      · exact le_trans (le_of_lt h) (hy z hz2)
    · simp only [insertByName, if_neg h]
      refine List.pairwise_cons.mpr ⟨?_, ih ht⟩
      intro z hz
      have hz2 : z = x ∨ z ∈ t := by
        simpa using (insertByName_perm x t).mem_iff.mp hz
      rcases hz2 with rfl | hz2
      · exact le_of_not_lt h
      · exact hy z hz2

theorem insertByName_filter_neg (x : String × DeviceData)
    (l : List (String × DeviceData)) (n : String) (hx : ¬x.2.name = n) :
    (insertByName x l).filter (fun e => e.2.name == n)
      = l.filter (fun e => e.2.name == n) := by
  induction l with
  | nil => simp [insertByName, hx]
  | cons y t ih =>
    by_cases h : x.2.name < y.2.name
    · simp only [insertByName, if_pos h]
      simp [List.filter_cons, hx]
    · simp only [insertByName, if_neg h, List.filter_cons, ih]

theorem insertByName_filter_pos (x : String × DeviceData)
    (l : List (String × DeviceData)) (n : String) (hx : x.2.name = n)
    (hl : l.Pairwise (fun a b => a.2.name ≤ b.2.name)) :
    (insertByName x l).filter (fun e => e.2.name == n)
      = l.filter (fun e => e.2.name == n) ++ [x] := by
  induction l with
  | nil => simp [insertByName, hx]
  | cons y t ih =>
    rcases List.pairwise_cons.mp hl with ⟨hy, ht⟩
    by_cases h : x.2.name < y.2.name
    · have hnil : (y :: t).filter (fun e => e.2.name == n) = [] := by
        refine List.filter_eq_nil_iff.mpr ?_
        intro z hz
        have hzname : n < z.2.name := by
          rcases List.mem_cons.mp hz with rfl | hz2
          · exact hx ▸ h
          · exact lt_of_lt_of_le (hx ▸ h) (hy z hz2)
        simp [(ne_of_gt hzname : z.2.name ≠ n)]
      simp only [insertByName, if_pos h]
      simp [List.filter_cons, hx, hnil]
    · simp only [insertByName, if_neg h, List.filter_cons, ih ht]
      by_cases hy2 : y.2.name = n
      · simp [hy2]
      · simp [hy2]

theorem sortLoop_pairwise (l acc : List (String × DeviceData))
    (hacc : acc.Pairwise (fun a b => a.2.name ≤ b.2.name)) :
    (l.foldl (fun acc x => insertByName x acc) acc).Pairwise
      (fun a b => a.2.name ≤ b.2.name) := by
  induction l generalizing acc with
  | nil => simpa using hacc
  | cons x t ih => exact ih _ (insertByName_sorted x acc hacc)

theorem sortLoop_perm (l acc : List (String × DeviceData)) :
    (l.foldl (fun acc x => insertByName x acc) acc).Perm (acc ++ l) := by
  induction l generalizing acc with
  | nil => simp
  | cons x t ih =>
    refine (ih (insertByName x acc)).trans ?_
    refine (((insertByName_perm x acc).append_right t)).trans ?_
    exact (List.perm_middle).symm

theorem sortLoop_filter (l acc : List (String × DeviceData)) (n : String)
    (hacc : acc.Pairwise (fun a b => a.2.name ≤ b.2.name)) :
    (l.foldl (fun acc x => insertByName x acc) acc).filter
        (fun e => e.2.name == n)
      = acc.filter (fun e => e.2.name == n)
        ++ l.filter (fun e => e.2.name == n) := by
  induction l generalizing acc with
  | nil => simp
  | cons x t ih =>
    rw [List.foldl_cons, ih _ (insertByName_sorted x acc hacc)]
    by_cases hx : x.2.name = n
    · rw [insertByName_filter_pos x acc n hx hacc, List.filter_cons]
      simp [hx]
    · rw [insertByName_filter_neg x acc n hx, List.filter_cons]
      simp [hx]

/-- C6 counterexample: two presentations of the same registry (the same
two devices sharing the display name "X", listed in the two possible hash
map iteration orders) render in different sidebar orders, and the order is
not the identifier-ascending one: the sort compares display names only and
Rust's stable sort leaves ties in iteration order, so the claimed
identifier tie-break and per-registry determinism both fail. -/
theorem C6_tie_order_not_deterministic :
    ([("bb", ⟨"X", DeviceType.Other, none⟩),
      ("aa", ⟨"X", DeviceType.Other, none⟩)] :
        List (String × DeviceData)).Perm
      [("aa", ⟨"X", DeviceType.Other, none⟩),
       ("bb", ⟨"X", DeviceType.Other, none⟩)]
    ∧ sort_by_name
        [("bb", ⟨"X", DeviceType.Other, none⟩),
         ("aa", ⟨"X", DeviceType.Other, none⟩)]
      = [("bb", ⟨"X", DeviceType.Other, none⟩),
         ("aa", ⟨"X", DeviceType.Other, none⟩)]
    ∧ sort_by_name
        [("aa", ⟨"X", DeviceType.Other, none⟩),
         ("bb", ⟨"X", DeviceType.Other, none⟩)]
      = [("aa", ⟨"X", DeviceType.Other, none⟩),
         ("bb", ⟨"X", DeviceType.Other, none⟩)]
    ∧ sort_by_name
        [("bb", ⟨"X", DeviceType.Other, none⟩),
         ("aa", ⟨"X", DeviceType.Other, none⟩)]
      ≠ sort_by_name
        [("aa", ⟨"X", DeviceType.Other, none⟩),
         ("bb", ⟨"X", DeviceType.Other, none⟩)] := by
  have hXX : ¬("X" : String) < "X" := lt_irrefl _
  have h1 : sort_by_name
      [("bb", ⟨"X", DeviceType.Other, none⟩),
       ("aa", ⟨"X", DeviceType.Other, none⟩)]
      = [("bb", ⟨"X", DeviceType.Other, none⟩),
         ("aa", ⟨"X", DeviceType.Other, none⟩)] := by
    simp [sort_by_name, insertByName, hXX]
  have h2 : sort_by_name
      [("aa", ⟨"X", DeviceType.Other, none⟩),
       ("bb", ⟨"X", DeviceType.Other, none⟩)]
      = [("aa", ⟨"X", DeviceType.Other, none⟩),
         ("bb", ⟨"X", DeviceType.Other, none⟩)] := by
    simp [sort_by_name, insertByName, hXX]
  refine ⟨List.Perm.swap _ _ _, h1, h2, ?_⟩
  rw [h1, h2]
  intro hcontra
  exact absurd (congrArg (fun l => l.map Prod.fst) hcontra) (by decide)

/-- C6 (amended): the sidebar renders device rows sorted by display name
under case-sensitive lexicographic order; ties between equal display names
are left in the registry's iteration order by the stable sort (they are
not broken by identifier, so the order is deterministic only up to that
iteration order). The output is a permutation of the registry, is sorted
by name, preserves the relative order of every group of equal names, and
the spec's pinned example Zeta, Alpha, beta renders as Alpha, Zeta, beta. -/
theorem C6_sidebar_sorted_by_name_stable :
    (∀ registry : List (String × DeviceData),
      (sort_by_name registry).Perm registry
      ∧ (sort_by_name registry).Pairwise (fun a b => a.2.name ≤ b.2.name)
      ∧ (∀ n : String,
          (sort_by_name registry).filter (fun e => e.2.name == n)
            = registry.filter (fun e => e.2.name == n)))
    ∧ sort_by_name
        [("m1", ⟨"Zeta", DeviceType.Other, none⟩),
         ("m2", ⟨"Alpha", DeviceType.Other, none⟩),
         ("m3", ⟨"beta", DeviceType.Other, none⟩)]
      = [("m2", ⟨"Alpha", DeviceType.Other, none⟩),
         ("m1", ⟨"Zeta", DeviceType.Other, none⟩),
         ("m3", ⟨"beta", DeviceType.Other, none⟩)] := by
  constructor
  · intro registry
    refine ⟨?_, sortLoop_pairwise registry [] List.Pairwise.nil, ?_⟩
    · simpa [sort_by_name] using sortLoop_perm registry []
    · intro n
      simpa [sort_by_name] using sortLoop_filter registry [] n List.Pairwise.nil
  · have hAZ : ("Alpha" : String) < "Zeta" :=
      String.lt_iff_toList_lt.mpr (by decide)
    have hbA : ¬("beta" : String) < "Alpha" :=
      fun h => absurd (String.lt_iff_toList_lt.mp h) (by decide)
    have hbZ : ¬("beta" : String) < "Zeta" :=
      fun h => absurd (String.lt_iff_toList_lt.mp h) (by decide)
    simp [sort_by_name, insertByName, hAZ, hbA, hbZ]

/-- C10: once the producer has terminated and the queue is drained, every
invocation of wait_for_message resolves to the distinguished NoOp message
(never an error), leaving the channel state unchanged, so the uniform
re-arm logic keeps working across repeated invocations. -/
theorem C10_closed_channel_always_noop :
    ∀ n : Nat,
      waitRepeat n ⟨[], true⟩
        = some (Message.UIMessage UIMessage.NoOp, ⟨[], true⟩) := by
  intro n
  induction n with
  | zero => rfl
  | succ n ih => exact ih

theorem two_pi_pos : 0 < 2 * Real.pi := by positivity

theorem remEuclid_nonneg (a b : ℝ) (hb : 0 < b) : 0 ≤ remEuclid a b := by
  have h1 : ((⌊a / b⌋ : ℝ)) ≤ a / b := Int.floor_le _
  have h2 : b * ((⌊a / b⌋ : ℝ)) ≤ b * (a / b) :=
    mul_le_mul_of_nonneg_left h1 (le_of_lt hb)
  have h3 : b * (a / b) = a := by field_simp
  simp only [remEuclid]
  linarith

theorem remEuclid_lt (a b : ℝ) (hb : 0 < b) : remEuclid a b < b := by
  have h1 : a / b < (⌊a / b⌋ : ℝ) + 1 := Int.lt_floor_add_one _
  have h2 : a < ((⌊a / b⌋ : ℝ) + 1) * b := (div_lt_iff₀ hb).mp h1
  have h3 : ((⌊a / b⌋ : ℝ) + 1) * b = b * (⌊a / b⌋ : ℝ) + b := by ring
  simp only [remEuclid]
  linarith

theorem remEuclid_eq_self (a b : ℝ) (h0 : 0 ≤ a) (hab : a < b) :
    remEuclid a b = a := by
  have hb : 0 < b := lt_of_le_of_lt h0 hab
  have hf : ⌊a / b⌋ = 0 := by
    refine Int.floor_eq_zero_iff.mpr ?_
    exact Set.mem_Ico.mpr ⟨div_nonneg h0 hb.le, (div_lt_one hb).mpr hab⟩
  simp [remEuclid, hf]

theorem atan2_zero_x_pos_y (y : ℝ) (hy : 0 < y) : atan2 y 0 = Real.pi / 2 := by
  simp only [atan2]
  rw [if_neg (lt_irrefl (0 : ℝ)), if_neg (lt_irrefl (0 : ℝ)), if_pos hy]

theorem atan2_zero_x_neg_y (y : ℝ) (hy : y < 0) : atan2 y 0 = -(Real.pi / 2) := by
  simp only [atan2]
  rw [if_neg (lt_irrefl (0 : ℝ)), if_neg (lt_irrefl (0 : ℝ)),
    if_neg (not_lt.mpr hy.le), if_pos hy]

theorem atan2_pos_x_zero_y (x : ℝ) (hx : 0 < x) : atan2 0 x = 0 := by
  simp only [atan2]
  rw [if_pos hx]
  simp [Real.arctan_zero]

theorem sqrt_529 : Real.sqrt 529 = 23 := by
  rw [show (529 : ℝ) = 23 * 23 by norm_num]
  exact Real.sqrt_mul_self (by norm_num)

theorem dist_32_55 : dist_from_center 32 55 = 23 := by
  simp only [dist_from_center]
  norm_num
  exact sqrt_529

theorem dist_55_32 : dist_from_center 55 32 = 23 := by
  simp only [dist_from_center]
  norm_num
  exact sqrt_529

theorem dist_32_9 : dist_from_center 32 9 = 23 := by
  simp only [dist_from_center]
  norm_num
  exact sqrt_529

theorem annulus_32_55 : in_annulus 32 55 := by
  refine ⟨?_, ?_⟩ <;> rw [dist_32_55] <;> norm_num

theorem angle_32_55 : angle_from_top 32 55 = 0 := by
  simp only [angle_from_top]
  norm_num
  rw [atan2_zero_x_pos_y 23 (by norm_num), sub_self]
  exact remEuclid_eq_self 0 _ le_rfl two_pi_pos

theorem angle_55_32 : angle_from_top 55 32 = Real.pi / 2 := by
  simp only [angle_from_top]
  norm_num
  rw [atan2_pos_x_zero_y 23 (by norm_num), sub_zero]
  refine remEuclid_eq_self _ _ (by positivity) ?_
  have hπ : 0 < Real.pi := Real.pi_pos
  linarith

theorem angle_32_9 : angle_from_top 32 9 = Real.pi := by
  simp only [angle_from_top]
  norm_num
  rw [atan2_zero_x_neg_y (-23) (by norm_num)]
  rw [show Real.pi / 2 - -(Real.pi / 2) = Real.pi by ring]
  refine remEuclid_eq_self _ _ Real.pi_pos.le ?_
  have hπ : 0 < Real.pi := Real.pi_pos
  linarith

theorem angle_from_top_nonneg (x y : Nat) : 0 ≤ angle_from_top x y :=
  remEuclid_nonneg _ _ two_pi_pos

theorem angle_from_top_lt (x y : Nat) : angle_from_top x y < 2 * Real.pi :=
  remEuclid_lt _ _ two_pi_pos

theorem percent_value_zero_str : percent_value "0%" = 0 := by
  have he : ends_with_pct "0%" = true := by decide
  have hp : parse_decimal_nat (strip_pct "0%") = some 0 := by decide
  simp [percent_value, he, hp]

theorem percent_value_hundred_str : percent_value "100%" = 1 := by
  have he : ends_with_pct "100%" = true := by decide
  have hp : parse_decimal_nat (strip_pct "100%") = some 100 := by decide
  simp [percent_value, he, hp]

theorem ring_pixel_green_iff (p : ℝ) (x y : Nat) (hann : in_annulus x y) :
    ring_pixel p x y = greenPx ↔ angle_from_top x y ≤ p * (2 * Real.pi) := by
  by_cases hc : angle_from_top x y ≤ p * (2 * Real.pi)
  · simp [ring_pixel, hann, hc]
  · simp [ring_pixel, hc, ring_background, hann, grayPx, greenPx]

/-- C4 counterexample: with input "0%" the parsed percentage is 0, yet the
annulus pixel (32, 55) — directly below the center — is colored with the
fill color, because the fill comparison is non-strict and the computed
angle (pi/2 - atan2(dy, dx)).rem_euclid(2 pi) is 0 at the bottom of the
icon (screen y grows downward), not at the top; the claim's "for P=0 no
annulus pixel is filled" is therefore false. -/
theorem C4_zero_percent_fills_a_pixel :
    in_annulus 32 55
    ∧ ring_pixel (percent_value "0%") 32 55 = greenPx := by
  refine ⟨annulus_32_55, ?_⟩
  rw [percent_value_zero_str]
  have hc : angle_from_top 32 55 ≤ 0 * (2 * Real.pi) := by
    rw [angle_32_55]
    norm_num
  unfold ring_pixel
  exact if_pos ⟨annulus_32_55, hc⟩

/-- C4 (amended): for parsed percentage p, ring-gauge mode colors as
filled exactly those annulus pixels whose angle
(pi/2 - atan2(dy, dx)).rem_euclid(2 pi) is at most p * 2 pi (non-strict
comparison); that angle is 0 at the bottom pixel of the annulus, pi/2 at
the right and pi at the top, i.e. it is measured counterclockwise from
the bottom in screen orientation, not clockwise from the top. For "100%"
the entire annulus is filled; for "0%" exactly the zero-angle (bottom)
pixels are filled, not none. -/
theorem C4_ring_fill_characterization :
    (∀ (p : ℝ) (x y : Nat), in_annulus x y →
      (ring_pixel p x y = greenPx ↔
        angle_from_top x y ≤ p * (2 * Real.pi)))
    ∧ (∀ x y : Nat, in_annulus x y →
        ring_pixel (percent_value "100%") x y = greenPx)
    ∧ (∀ x y : Nat, in_annulus x y →
        (ring_pixel (percent_value "0%") x y = greenPx ↔
          angle_from_top x y = 0))
    ∧ angle_from_top 32 55 = 0
    ∧ angle_from_top 55 32 = Real.pi / 2
    ∧ angle_from_top 32 9 = Real.pi := by
  refine ⟨fun p x y h => ring_pixel_green_iff p x y h, ?_, ?_,
    angle_32_55, angle_55_32, angle_32_9⟩
  · intro x y h
    refine (ring_pixel_green_iff _ x y h).mpr ?_
    rw [percent_value_hundred_str, one_mul]
    exact (angle_from_top_lt x y).le
  · intro x y h
    rw [ring_pixel_green_iff _ x y h, percent_value_zero_str, zero_mul]
    exact ⟨fun hle => le_antisymm hle (angle_from_top_nonneg x y),
      fun heq => heq.le⟩

/-- Witness for the amended C4 theorem: the concrete annulus pixel
(32, 55) discharges the annulus hypothesis, and the theorem applied there
fills it at "100%". -/
theorem C4_ring_fill_characterization_witness :
    in_annulus 32 55
    ∧ ring_pixel (percent_value "100%") 32 55 = greenPx :=
  ⟨annulus_32_55, C4_ring_fill_characterization.2.1 32 55 annulus_32_55⟩

end LibrePods
